import Mathlib

/-!
Verification development for the performance-statistics aggregation layer
(`common/stats/aggregated_stats.py`): TaskStats with its two construction
paths, StatsMetadata, and the AggregatedStats normalization step, embedded
shallowly over a small universe of Python runtime values.
-/

namespace AggStats

/-- Modelled from the spec: the environment classifier from the shared stats
configuration module (`common.stats.stats_config.StatsEnvironment`, not part
of the excerpt) is a closed sum with exactly the values TEST and PROD. -/
inductive StatsEnvironment where
  | TEST : StatsEnvironment
  | PROD : StatsEnvironment
deriving DecidableEq, Repr

/-- Modelled from the spec: the serialized (string) form "TEST" | "PROD" of the
environment classifier, as it appears in the nested JSON shape. -/
def StatsEnvironment.serialized : StatsEnvironment → String
  | .TEST => "TEST"
  | .PROD => "PROD"

/-- Atomic Python runtime values occurring in the statistics records:
`None`, ints, floats (modelled as rationals), strings, booleans, and the
environment enum. -/
inductive Prim where
  | pynone : Prim
  | int : ℤ → Prim
  | rat : ℚ → Prim
  | str : String → Prim
  | bool : Bool → Prim
  | env : StatsEnvironment → Prim
deriving DecidableEq, Repr

/-- Values a TaskStats field can hold: an atom, a Python list of atoms
(flattened percentile column), or a Python dict (the percentile mapping,
in insertion order). -/
inductive TVal where
  | prim : Prim → TVal
  | plist : List Prim → TVal
  | pdict : List (Prim × Prim) → TVal
deriving DecidableEq, Repr

/-- How many times `p` divides `n` (fuelled recursion; fuel `n` suffices). -/
def countFacAux (p : ℕ) : ℕ → ℕ → ℕ
  | 0, _ => 0
  | fuel + 1, n => if 2 ≤ p ∧ 0 < n ∧ n % p = 0 then countFacAux p fuel (n / p) + 1 else 0

def countFac (p n : ℕ) : ℕ := countFacAux p n n

/-- Python's `str()` on a float whose value is a decimal-representable
rational (denominator of the form 2^a * 5^b): the shortest decimal rendering,
e.g. 0.5 ↦ "0.5", 0.8 ↦ "0.8", 1.0 ↦ "1.0".  All configured percentile
values are of this form; other rationals take an unused fallback branch. -/
def pyStr (q : ℚ) : String :=
  let c2 := countFac 2 q.den
  let c5 := countFac 5 q.den
  let k := max c2 c5
  if q.den = 2 ^ c2 * 5 ^ c5 then
    let scaled : ℤ := q.num * (10 : ℤ) ^ k / (q.den : ℤ)
    let sign := if q.num < 0 then "-" else ""
    let a := scaled.natAbs
    let ip := a / 10 ^ k
    let fp := a % 10 ^ k
    let fpStr := toString fp
    let fpPad := String.mk (List.replicate (k - fpStr.length) '0') ++ fpStr
    sign ++ toString ip ++ "." ++ fpPad
  else
    toString q

/-- Locust's `PERCENTILES_TO_REPORT` configuration constant (its default
value); the code treats it purely as an externally shared ordered list, so
the embedding passes the list explicitly to each function that reads it. -/
def PERCENTILES_TO_REPORT : List ℚ :=
  [mkRat 1 2, mkRat 66 100, mkRat 3 4, mkRat 4 5, mkRat 9 10, mkRat 95 100,
   mkRat 98 100, mkRat 99 100, mkRat 999 1000, mkRat 9999 10000, mkRat 1 1]

/-- `@dataclass TaskStats`: the eleven fields, in declaration order.  Python
dataclass fields are dynamically typed, so each field holds a runtime value. -/
structure TaskStats where
  task_name : TVal
  request_method : TVal
  num_requests : TVal
  num_failures : TVal
  median_response_time : TVal
  average_response_time : TVal
  min_response_time : TVal
  max_response_time : TVal
  total_reqs_per_second : TVal
  total_fails_per_sec : TVal
  response_time_percentiles : TVal
deriving DecidableEq, Repr

/-- `@dataclass StatsMetadata`: the seven fields, in declaration order. -/
structure StatsMetadata where
  timestamp : Prim
  tag : Prim
  environment : Prim
  stats_reset_after_spawn : Prim
  num_total_users : Prim
  num_users_per_second : Prim
  total_runtime : Prim
deriving DecidableEq, Repr

/-- The live per-task counter source (`locust.stats.StatsEntry`), at its
interface boundary: the attributes and the percentile query that
`TaskStats.from_stats_entry` reads.  Optional numeric results are `Option ℚ`. -/
structure StatsEntry where
  name : String
  method : String
  num_requests : ℤ
  num_failures : ℤ
  median_response_time : ℤ
  avg_response_time : ℚ
  min_response_time : Option ℚ
  max_response_time : ℚ
  total_rps : ℚ
  total_fail_per_sec : ℚ
  get_response_time_percentile : ℚ → Option ℚ

/-- Python `x or 0` on an optional numeric: `None` and numeric zero are falsy
and give the literal int `0`; any other numeric is returned unchanged. -/
def pyOrZero : Option ℚ → Prim
  | Option.none => .int 0
  | some q => if q = 0 then .int 0 else .rat q

/-- Python `int()` on a numeric: truncation toward zero. -/
def pyTrunc (q : ℚ) : ℤ := if 0 ≤ q then ⌊q⌋ else ⌈q⌉

/-- Python `int(x or 0)` applied to an optional numeric query result. -/
def pyIntOrZero (o : Option ℚ) : ℤ :=
  match pyOrZero o with
  | .int n => n
  | .rat q => pyTrunc q
  | _ => 0

/-- `TaskStats.__get_percentiles_dict`: with zero requests, return
`{k: 0 for k in PERCENTILES_TO_REPORT}` — note the keys are the raw (float)
percentile values; otherwise `{str(p): int(query(p) or 0) for p in ...}`,
whose keys are the stringified percentiles. -/
def getPercentilesDict (P : List ℚ) (e : StatsEntry) : List (Prim × Prim) :=
  if e.num_requests = 0 then
    P.map fun k => (.rat k, .int 0)
  else
    P.map fun p => (.str (pyStr p), .int (pyIntOrZero (e.get_response_time_percentile p)))

/-- `TaskStats.from_stats_entry` (construction path A). -/
def TaskStats.from_stats_entry (P : List ℚ) (e : StatsEntry) : TaskStats where
  task_name := .prim (.str e.name)
  request_method := .prim (.str e.method)
  num_requests := .prim (.int e.num_requests)
  num_failures := .prim (.int e.num_failures)
  median_response_time := .prim (.int e.median_response_time)
  average_response_time := .prim (.rat e.avg_response_time)
  min_response_time := .prim (pyOrZero e.min_response_time)
  max_response_time := .prim (.rat e.max_response_time)
  total_reqs_per_second := .prim (.rat e.total_rps)
  total_fails_per_sec := .prim (.rat e.total_fail_per_sec)
  response_time_percentiles := .pdict (getPercentilesDict P e)

/-- Python subscripting `v[i]` for each `i < n`, as used on the raw percentile
cell by `from_list`: positional on a list (raising when the list is too
short), key lookup on a dict (raising on a missing integer key), raising on a
scalar.  `none` models the raised exception. -/
def pySubscriptAll (v : TVal) (n : ℕ) : Option (List Prim)
 :=
  match v with
  | .plist xs => if n ≤ xs.length then some (xs.take n) else none
  | .pdict kvs => (List.range n).mapM fun i => kvs.lookup (.int i)
  | .prim _ => none

/-- `TaskStats.from_list` (construction path B): zip the declared field names
with the values positionally (`values[i]` raises when the row is shorter than
the eleven fields; extra cells are never read), then replace the raw
percentile cell with `{str(p): cell[i] for i, p in enumerate(P)}`.
`none` models the raised exception. -/
def TaskStats.from_list (P : List ℚ) (values : List TVal) : Option TaskStats :=
  match values with
  | v0 :: v1 :: v2 :: v3 :: v4 :: v5 :: v6 :: v7 :: v8 :: v9 :: v10 :: _ =>
    match pySubscriptAll v10 P.length with
    | some sub =>
      some ⟨v0, v1, v2, v3, v4, v5, v6, v7, v8, v9,
            .pdict ((P.zip sub).map fun pv => (.str (pyStr pv.1), pv.2))⟩
    | Option.none => Option.none
  | _ => Option.none

/-- The live run-state source (`locust.env.Environment`), at its interface
boundary: the attributes that `StatsMetadata.from_locust_env` reads. -/
structure LocustEnv where
  reset_stats : Bool
  num_users : ℤ
  spawn_rate : ℚ
  last_request_timestamp : ℚ
  start_time : ℚ

/-- `StatsMetadata.from_locust_env`: pass the supplied timestamp, tag and
environment through and compute `total_runtime` as
`last_request_timestamp - start_time`. -/
def StatsMetadata.from_locust_env (timestamp : ℤ) (tag : String)
    (environment : StatsEnvironment) (locust_env : LocustEnv) : StatsMetadata where
  timestamp := .int timestamp
  tag := .str tag
  environment := .env environment
  stats_reset_after_spawn := .bool locust_env.reset_stats
  num_total_users := .int locust_env.num_users
  num_users_per_second := .rat locust_env.spawn_rate
  total_runtime := .rat (locust_env.last_request_timestamp - locust_env.start_time)

/-- The `metadata` slot of `AggregatedStats` before/after normalization: an
untyped field-name-to-value mapping (as produced by generic JSON
deserialization), an already-typed `StatsMetadata`, or `None`. -/
inductive MetaVal where
  | raw : List (String × Prim) → MetaVal
  | typed : StatsMetadata → MetaVal
  | pynone : MetaVal
deriving DecidableEq, Repr

/-- An element of the `tasks` slot of `AggregatedStats` before/after
normalization: an untyped field-name-to-value mapping or a typed `TaskStats`. -/
inductive TaskVal where
  | raw : List (String × TVal) → TaskVal
  | typed : TaskStats → TaskVal
deriving DecidableEq, Repr

/-- `StatsMetadata(**d)` on an untyped mapping: succeeds exactly when every
declared field name is bound and there are no extra bindings (Python raises
`TypeError` on a missing or unexpected keyword). -/
def coerceMeta (kvs : List (String × Prim)) : Option StatsMetadata :=
  if kvs.length = 7 then
    (kvs.lookup "timestamp").bind fun ts =>
    (kvs.lookup "tag").bind fun tg =>
    (kvs.lookup "environment").bind fun ev =>
    (kvs.lookup "stats_reset_after_spawn").bind fun rs =>
    (kvs.lookup "num_total_users").bind fun nu =>
    (kvs.lookup "num_users_per_second").bind fun ns =>
    (kvs.lookup "total_runtime").map fun tr => ⟨ts, tg, ev, rs, nu, ns, tr⟩
  else Option.none

/-- `TaskStats(**d)` on an untyped mapping, with the same keyword semantics. -/
def coerceTask (kvs : List (String × TVal)) : Option TaskStats :=
  if kvs.length = 11 then
    (kvs.lookup "task_name").bind fun a0 =>
    (kvs.lookup "request_method").bind fun a1 =>
    (kvs.lookup "num_requests").bind fun a2 =>
    (kvs.lookup "num_failures").bind fun a3 =>
    (kvs.lookup "median_response_time").bind fun a4 =>
    (kvs.lookup "average_response_time").bind fun a5 =>
    (kvs.lookup "min_response_time").bind fun a6 =>
    (kvs.lookup "max_response_time").bind fun a7 =>
    (kvs.lookup "total_reqs_per_second").bind fun a8 =>
    (kvs.lookup "total_fails_per_sec").bind fun a9 =>
    (kvs.lookup "response_time_percentiles").map fun a10 =>
      ⟨a0, a1, a2, a3, a4, a5, a6, a7, a8, a9, a10⟩
  else Option.none

/-- `TaskStats(**task_dict)` on one element of the tasks sequence: an
already-typed element is not a mapping, so `**`-unpacking raises `TypeError`. -/
def coerceTaskVal : TaskVal → Option TaskStats
  | .raw kvs => coerceTask kvs
  | .typed _ => Option.none

/-- The list comprehension `[TaskStats(**task_dict) for task_dict in tasks]`:
all elements coerce, or the whole comprehension raises (`none`). -/
def coerceAll : List TaskVal → Option (List TaskStats)
  | [] => some []
  | tv :: rest =>
    match coerceTaskVal tv, coerceAll rest with
    | some t, some ts => some (t :: ts)
    | _, _ => Option.none

/-- The `metadata` arm of `AggregatedStats.__post_init__`: attempt the
mapping coercion and keep the value unchanged when it raises `TypeError`. -/
def normMeta : MetaVal → MetaVal
  | .raw kvs =>
    match coerceMeta kvs with
    | some m => .typed m
    | Option.none => .raw kvs
  | v => v

/-- The `tasks` arm of `AggregatedStats.__post_init__`: the comprehension is
assigned only when every element coerces; otherwise the raised `TypeError` is
caught and the sequence is left untouched. -/
def normTasks (ts : List TaskVal) : List TaskVal :=
  match coerceAll ts with
  | some coerced => coerced.map TaskVal.typed
  | Option.none => ts

/-- The `AggregatedStats` dataclass: metadata slot and tasks sequence. -/
structure AggregatedStats where
  metadata : MetaVal
  tasks : List TaskVal
deriving DecidableEq, Repr

/-- The dataclass constructor `AggregatedStats(metadata=..., tasks=...)`,
which runs `__post_init__` on the supplied values. -/
def AggregatedStats.create (metadata : MetaVal) (tasks : List TaskVal) : AggregatedStats where
  metadata := normMeta metadata
  tasks := normTasks tasks

/-- Modelled from the spec: serializing one atomic value to the
nested-mapping-of-primitives (JSON) shape of section 6 — the environment
classifier becomes its string form "TEST" | "PROD"; every other atom is
already a JSON primitive and is kept as-is. -/
def primToJson : Prim → Prim
  | .env e => .str e.serialized
  | v => v

/-- Modelled from the spec: a JSON object key — JSON stringifies every
non-string Python dict key (floats via their `str()` form). -/
def jsonKey : Prim → Prim
  | .str s => .str s
  | .rat q => .str (pyStr q)
  | .int n => .str (toString n)
  | .bool b => .str (if b then "true" else "false")
  | .pynone => .str "null"
  | .env e => .str e.serialized

/-- Modelled from the spec: serializing one task field value to the nested
JSON shape (atoms via `primToJson`, dict keys via `jsonKey`). -/
def tvalToJson : TVal → TVal
  | .prim p => .prim (primToJson p)
  | .plist xs => .plist (xs.map primToJson)
  | .pdict kvs => .pdict (kvs.map fun kv => (jsonKey kv.1, primToJson kv.2))

/-- Modelled from the spec: the nested-mapping form of a `StatsMetadata`
(section 6), binding each declared field name to its serialized value. -/
def StatsMetadata.serialize (m : StatsMetadata) : List (String × Prim) :=
  [("timestamp", primToJson m.timestamp), ("tag", primToJson m.tag),
   ("environment", primToJson m.environment),
   ("stats_reset_after_spawn", primToJson m.stats_reset_after_spawn),
   ("num_total_users", primToJson m.num_total_users),
   ("num_users_per_second", primToJson m.num_users_per_second),
   ("total_runtime", primToJson m.total_runtime)]

/-- Modelled from the spec: the nested-mapping form of a `TaskStats`
(section 6), binding each declared field name to its serialized value. -/
def TaskStats.serialize (t : TaskStats) : List (String × TVal) :=
  [("task_name", tvalToJson t.task_name), ("request_method", tvalToJson t.request_method),
   ("num_requests", tvalToJson t.num_requests), ("num_failures", tvalToJson t.num_failures),
   ("median_response_time", tvalToJson t.median_response_time),
   ("average_response_time", tvalToJson t.average_response_time),
   ("min_response_time", tvalToJson t.min_response_time),
   ("max_response_time", tvalToJson t.max_response_time),
   ("total_reqs_per_second", tvalToJson t.total_reqs_per_second),
   ("total_fails_per_sec", tvalToJson t.total_fails_per_sec),
   ("response_time_percentiles", tvalToJson t.response_time_percentiles)]

/-- Modelled from the spec: the metadata slot of the serialized nested form —
a typed metadata becomes its untyped mapping, `None` stays `null`, and an
already-untyped mapping is unchanged by a JSON round trip. -/
def MetaVal.serialize : MetaVal → MetaVal
  | .typed m => .raw m.serialize
  | v => v

/-- Modelled from the spec: one element of the serialized tasks sequence. -/
def TaskVal.serialize : TaskVal → TaskVal
  | .typed t => .raw t.serialize
  | v => v

/-- Serializing an `AggregatedStats` to its nested-mapping form and
reconstructing it via the normalization constructor (the round trip of
spec property 3). -/
def AggregatedStats.roundTrip (a : AggregatedStats) : AggregatedStats :=
  AggregatedStats.create a.metadata.serialize (a.tasks.map TaskVal.serialize)

/-- Modelled from the spec: the flattened-row form of a `TaskStats`
(section 6) — the fields in declaration order, with the percentile mapping
flattened into one ordered column list.  Every construction path stores the
mapping in the shared percentile-list order, so its values in that order are
the mapping's values in insertion order. -/
def TaskStats.flatten (t : TaskStats) : List TVal :=
  [t.task_name, t.request_method, t.num_requests, t.num_failures,
   t.median_response_time, t.average_response_time, t.min_response_time,
   t.max_response_time, t.total_reqs_per_second, t.total_fails_per_sec,
   match t.response_time_percentiles with
   | .pdict kvs => .plist (kvs.map Prod.snd)
   | v => v]

/-- The declared `StatsMetadata` field names, in declaration order. -/
def metaFieldNames : List String :=
  ["timestamp", "tag", "environment", "stats_reset_after_spawn",
   "num_total_users", "num_users_per_second", "total_runtime"]

/-- The concrete counter source of the spec's scenario 7: 100 requests,
2 failures, median 120, average 130.5, absent minimum, maximum 500,
10.0 requests/sec, 0.2 failures/sec, and percentile answers
0.5 ↦ 120, 0.95 ↦ 450, 0.99 ↦ absent. -/
def scenarioEntry : StatsEntry :=
  ⟨"task", "POST", 100, 2, 120, mkRat 261 2, Option.none, mkRat 500 1,
   mkRat 10 1, mkRat 1 5,
   fun p => if p = mkRat 1 2 then some (mkRat 120 1)
            else if p = mkRat 95 100 then some (mkRat 450 1)
            else Option.none⟩

/-- A counter source with zero requests whose other readings are non-zero:
the percentile query even answers 999 everywhere, and the reported minimum is
absent (as the upstream counter reports when no request completed). -/
def zeroRequestEntry : StatsEntry :=
  ⟨"t", "GET", 0, 0, 5, mkRat 5 1, Option.none, mkRat 5 1, mkRat 5 1, mkRat 5 1,
   fun _ => some (mkRat 999 1)⟩

/-- A counter source with one request whose 0.5-percentile answer is the
non-integral response time 450.7. -/
def fractionalEntry : StatsEntry :=
  ⟨"t", "GET", 1, 0, 120, mkRat 1 1, some (mkRat 1 1), mkRat 1 1, mkRat 1 1, mkRat 1 1,
   fun _ => some (mkRat 4507 10)⟩

/-- A flattened row with twelve cells (one more than the eleven declared
fields) whose percentile cell also carries two values against a single
configured percentile (one more than expected). -/
def longRow : List TVal :=
  [.prim (.str "t"), .prim (.str "GET"), .prim (.int 1), .prim (.int 0),
   .prim (.int 1), .prim (.rat (mkRat 1 1)), .prim (.int 0), .prim (.rat (mkRat 1 1)),
   .prim (.rat (mkRat 1 1)), .prim (.rat (mkRat 1 1)), .plist [.int 5, .int 6],
   .prim (.int 99)]

/-- The `TaskStats` that path A produces for a zero-request counter source:
its percentile mapping is keyed by the raw float 0.5, not by "0.5". -/
def zeroRequestTask : TaskStats :=
  TaskStats.from_stats_entry [mkRat 1 2]
    ⟨"t", "GET", 0, 0, 0, mkRat 0 1, Option.none, mkRat 0 1, mkRat 0 1, mkRat 0 1,
     fun _ => Option.none⟩

/-- A well-formed untyped task mapping (all eleven field names bound, in
declaration order). -/
def sampleTaskDict : List (String × TVal) :=
  [("task_name", .prim (.str "t")), ("request_method", .prim (.str "GET")),
   ("num_requests", .prim (.int 1)), ("num_failures", .prim (.int 0)),
   ("median_response_time", .prim (.int 1)),
   ("average_response_time", .prim (.rat (mkRat 1 1))),
   ("min_response_time", .prim (.int 0)),
   ("max_response_time", .prim (.rat (mkRat 1 1))),
   ("total_reqs_per_second", .prim (.rat (mkRat 1 1))),
   ("total_fails_per_sec", .prim (.rat (mkRat 1 1))),
   ("response_time_percentiles", .pdict [(.str "0.5", .int 1)])]

/-- A typed `TaskStats` value. -/
def sampleTask : TaskStats :=
  ⟨.prim (.str "x"), .prim (.str "GET"), .prim (.int 2), .prim (.int 0),
   .prim (.int 3), .prim (.rat (mkRat 3 1)), .prim (.int 1), .prim (.rat (mkRat 3 1)),
   .prim (.rat (mkRat 3 1)), .prim (.rat (mkRat 3 1)), .pdict [(.str "0.5", .int 3)]⟩

/-- An atom that the JSON shape represents as itself (everything except the
environment enum, which serializes to its string form). -/
def Prim.jsonAtom : Prim → Bool
  | .env _ => false
  | _ => true

/-- A task field value that the JSON serialization maps to itself: an atom,
a list of atoms, or a string-keyed mapping of atoms. -/
def TVal.jsonReady : TVal → Bool
  | .prim p => p.jsonAtom
  | .plist xs => xs.all Prim.jsonAtom
  | .pdict kvs =>
    kvs.all fun kv => (match kv.1 with | .str _ => true | _ => false) && kv.2.jsonAtom

/-- A `TaskStats` every field of which the JSON serialization preserves. -/
def TaskStats.jsonReady (t : TaskStats) : Bool :=
  t.task_name.jsonReady && t.request_method.jsonReady && t.num_requests.jsonReady &&
  t.num_failures.jsonReady && t.median_response_time.jsonReady &&
  t.average_response_time.jsonReady && t.min_response_time.jsonReady &&
  t.max_response_time.jsonReady && t.total_reqs_per_second.jsonReady &&
  t.total_fails_per_sec.jsonReady && t.response_time_percentiles.jsonReady

/-- A `StatsMetadata` whose six non-environment fields are plain atoms. -/
def StatsMetadata.plainAtoms (m : StatsMetadata) : Bool :=
  m.timestamp.jsonAtom && m.tag.jsonAtom && m.stats_reset_after_spawn.jsonAtom &&
  m.num_total_users.jsonAtom && m.num_users_per_second.jsonAtom &&
  m.total_runtime.jsonAtom

/-- The field-wise JSON normalization a `TaskStats` undergoes in one
serialize/reconstruct cycle: every field is replaced by its JSON form —
the identity on atoms, lists of atoms and string-keyed mappings of atoms,
but a float-keyed percentile mapping is rekeyed by the keys' string forms. -/
def TaskStats.jsonNormalized (t : TaskStats) : TaskStats :=
  ⟨tvalToJson t.task_name, tvalToJson t.request_method, tvalToJson t.num_requests,
   tvalToJson t.num_failures, tvalToJson t.median_response_time,
   tvalToJson t.average_response_time, tvalToJson t.min_response_time,
   tvalToJson t.max_response_time, tvalToJson t.total_reqs_per_second,
   tvalToJson t.total_fails_per_sec, tvalToJson t.response_time_percentiles⟩

/-- The snapshot used to refute the round-trip law as stated: typed metadata
carrying the TEST environment classifier, and one task that path A actually
produces for a zero-request counter source (float-keyed percentile mapping). -/
def mixedAgg : AggregatedStats :=
  ⟨.typed ⟨.int 1, .str "run", .env .TEST, .bool true, .int 10,
    .rat (mkRat 1 1), .rat (mkRat 5 1)⟩, [TaskVal.typed zeroRequestTask]⟩

/-! ## Evaluation checks for the float renderer -/

example : pyStr (mkRat 1 2) = "0.5" := by decide
example : pyStr (mkRat 19 20) = "0.95" := by decide
example : pyStr (mkRat 99 100) = "0.99" := by decide
example : pyStr (mkRat 4 5) = "0.8" := by decide
example : pyStr (mkRat 1 1) = "1.0" := by decide
example : pyStr (mkRat 9999 10000) = "0.9999" := by decide
example : pyStr (mkRat 1 20) = "0.05" := by decide

/-! ## Claim C8 -/

/-- C8: `StatsMetadata.from_locust_env` sets `total_runtime` to exactly the
last-request timestamp minus the run-start timestamp, for every run-state
source and every supplied timestamp, tag and environment classifier; the
difference is passed through without any sign or magnitude validation, so a
zero or negative difference is returned as-is. -/
theorem from_locust_env_total_runtime (timestamp : ℤ) (tag : String)
    (environment : StatsEnvironment) (locust_env : LocustEnv) :
    (StatsMetadata.from_locust_env timestamp tag environment locust_env).total_runtime =
      .rat (locust_env.last_request_timestamp - locust_env.start_time) := rfl

/-! ## Claim C7 -/

/-- C7: on the scenario-7 counter source, with configured percentile set
{0.5, 0.95, 0.99}, construction path A produces `min_response_time = 0`,
`response_time_percentiles = {"0.5": 120, "0.95": 450, "0.99": 0}`, and every
other field passed through unchanged. -/
theorem from_stats_entry_scenario :
    TaskStats.from_stats_entry [mkRat 1 2, mkRat 95 100, mkRat 99 100] scenarioEntry =
      ⟨.prim (.str "task"), .prim (.str "POST"), .prim (.int 100), .prim (.int 2),
       .prim (.int 120), .prim (.rat (mkRat 261 2)), .prim (.int 0),
       .prim (.rat (mkRat 500 1)), .prim (.rat (mkRat 10 1)), .prim (.rat (mkRat 1 5)),
       .pdict [(.str "0.5", .int 120), (.str "0.95", .int 450), (.str "0.99", .int 0)]⟩ := by
  decide

/-! ## Claim C2 -/

/-- C2 (code bug): with zero requests the percentile dictionary is forced to
all-zero values without consulting the source and `min_response_time` is 0,
but the dictionary's keys are the raw float percentile values, not their
string forms — contradicting the declared `ResponseTimePercentiles` type
(`Dict[str, ...]`, "stringified percentile keys") that the other construction
branch and path B honour. -/
theorem zero_request_percentile_keys_are_floats :
    (TaskStats.from_stats_entry [mkRat 1 2, mkRat 95 100] zeroRequestEntry).response_time_percentiles
        = .pdict [(.rat (mkRat 1 2), .int 0), (.rat (mkRat 95 100), .int 0)]
      ∧ (TaskStats.from_stats_entry [mkRat 1 2, mkRat 95 100] zeroRequestEntry).min_response_time
        = .prim (.int 0)
      ∧ (TVal.pdict [(.rat (mkRat 1 2), .int 0), (.rat (mkRat 95 100), .int 0)]
          ≠ TVal.pdict [(.str (pyStr (mkRat 1 2)), .int 0), (.str (pyStr (mkRat 95 100)), .int 0)]) := by
  refine ⟨by decide, by decide, by decide⟩

/-! ## Claim C3 -/

/-- C3 (counterexample): for the source answering 450.7 at percentile 0.5,
path A records the percentile value 450 — `int()` truncation — while rounding
to the nearest integer would give 451, so the percentile entry does not equal
the source's reported value rounded to nearest. -/
theorem percentile_not_rounded_to_nearest :
    (TaskStats.from_stats_entry [mkRat 1 2] fractionalEntry).response_time_percentiles
        = .pdict [(.str "0.5", .int 450)]
      ∧ round (mkRat 4507 10 : ℚ) = 451
      ∧ (450 : ℤ) ≠ 451 := by
  refine ⟨by decide, ?_, by decide⟩
  have h : (mkRat 4507 10 : ℚ) = 4507 / 10 := by norm_num [mkRat]
  rw [h, round_eq]
  norm_num

/-- C3 (amended): for every counter source with a non-zero request count,
each percentile entry of path A is keyed by the stringified percentile and
holds the source's reported (non-negative) response time truncated to an
integer — its floor, not its nearest-integer rounding — with an absent result
substituted by 0 and never propagated as missing. -/
theorem percentile_values_truncated (P : List ℚ) (e : StatsEntry)
    (h0 : e.num_requests ≠ 0)
    (hnn : ∀ p q, e.get_response_time_percentile p = some q → 0 ≤ q) :
    (TaskStats.from_stats_entry P e).response_time_percentiles =
      .pdict (P.map fun p =>
        (.str (pyStr p),
         .int (match e.get_response_time_percentile p with
               | Option.none => 0
               | some q => ⌊q⌋))) := by
  have hpt : ∀ p : ℚ,
      pyIntOrZero (e.get_response_time_percentile p) =
        match e.get_response_time_percentile p with
        | Option.none => 0
        | some q => ⌊q⌋ := by
    intro p
    cases hq : e.get_response_time_percentile p with
    | none => rfl
    | some q =>
      have hq0 : 0 ≤ q := hnn p q hq
      by_cases hz : q = 0
      · subst hz
        simp [pyIntOrZero, pyOrZero]
      · simp [pyIntOrZero, pyOrZero, hz, pyTrunc, hq0]
  show TVal.pdict (getPercentilesDict P e) = _
  rw [getPercentilesDict, if_neg h0]
  congr 1
  exact List.map_congr_left fun p _ => by rw [hpt p]

/-- C3 (witness): the amended truncation statement instantiated at the
concrete fractional source above. -/
theorem percentile_values_truncated_witness :
    fractionalEntry.num_requests ≠ 0 ∧
    (TaskStats.from_stats_entry [mkRat 1 2] fractionalEntry).response_time_percentiles =
      .pdict [(.str "0.5", .int 450)] := by
  refine ⟨by decide, ?_⟩
  have h := percentile_values_truncated [mkRat 1 2] fractionalEntry (by decide)
    (fun p q hq => by
      simp only [fractionalEntry, Option.some.injEq] at hq
      rw [← hq]
      decide)
  rw [h]
  decide

/-! ## Claim C1 -/

/-- C1 (counterexample): `from_list` does not fail on every length mismatch —
on a row with one value more than the declared field count, and a percentile
sub-sequence one longer than the configured percentiles, construction
succeeds and silently ignores the extras. -/
theorem from_list_accepts_longer_row :
    longRow.length = 12
      ∧ TaskStats.from_list [mkRat 1 2] longRow =
          some ⟨.prim (.str "t"), .prim (.str "GET"), .prim (.int 1), .prim (.int 0),
                .prim (.int 1), .prim (.rat (mkRat 1 1)), .prim (.int 0),
                .prim (.rat (mkRat 1 1)), .prim (.rat (mkRat 1 1)), .prim (.rat (mkRat 1 1)),
                .pdict [(.str "0.5", .int 5)]⟩ := by
  refine ⟨by decide, by decide⟩

/-- C1 (amended): path B fails when the row is shorter than the declared
field count, and when the percentile sub-sequence is shorter than the
configured percentile list; but a longer row or a longer sub-sequence is
silently accepted, with the extra values ignored, rather than rejected. -/
theorem from_list_shape_behaviour (P : List ℚ) (values : List TVal) :
    (values.length < 11 → TaskStats.from_list P values = Option.none)
    ∧ ∀ v0 v1 v2 v3 v4 v5 v6 v7 v8 v9 sub rest,
        values = v0 :: v1 :: v2 :: v3 :: v4 :: v5 :: v6 :: v7 :: v8 :: v9 ::
                 TVal.plist sub :: rest →
        ((sub.length < P.length → TaskStats.from_list P values = Option.none)
         ∧ (P.length ≤ sub.length → ∃ t, TaskStats.from_list P values = some t)) := by
  constructor
  · intro h
    rcases values with _ | ⟨v0, _ | ⟨v1, _ | ⟨v2, _ | ⟨v3, _ | ⟨v4, _ | ⟨v5, _ | ⟨v6,
      _ | ⟨v7, _ | ⟨v8, _ | ⟨v9, _ | ⟨v10, rest⟩⟩⟩⟩⟩⟩⟩⟩⟩⟩⟩ <;>
      first
        | rfl
        | (simp only [List.length_cons] at h; omega)
  · rintro v0 v1 v2 v3 v4 v5 v6 v7 v8 v9 sub rest rfl
    constructor
    · intro hlt
      show (match pySubscriptAll (TVal.plist sub) P.length with
            | some s =>
              some (⟨v0, v1, v2, v3, v4, v5, v6, v7, v8, v9,
                     .pdict ((P.zip s).map fun pv => (.str (pyStr pv.1), pv.2))⟩ : TaskStats)
            | Option.none => Option.none) = Option.none
      rw [pySubscriptAll, if_neg (by omega)]
    · intro hle
      refine ⟨⟨v0, v1, v2, v3, v4, v5, v6, v7, v8, v9,
        .pdict ((P.zip (sub.take P.length)).map fun pv => (.str (pyStr pv.1), pv.2))⟩, ?_⟩
      show (match pySubscriptAll (TVal.plist sub) P.length with
            | some s =>
              some (⟨v0, v1, v2, v3, v4, v5, v6, v7, v8, v9,
                     .pdict ((P.zip s).map fun pv => (.str (pyStr pv.1), pv.2))⟩ : TaskStats)
            | Option.none => Option.none) =
        some ⟨v0, v1, v2, v3, v4, v5, v6, v7, v8, v9,
              .pdict ((P.zip (sub.take P.length)).map fun pv => (.str (pyStr pv.1), pv.2))⟩
      rw [pySubscriptAll, if_pos hle]

/-- C1 (witness): the amended shape statement applied at concrete rows — a
ten-cell row fails, a shorter percentile sub-sequence fails, and a longer
sub-sequence is accepted. -/
theorem from_list_shape_behaviour_witness :
    TaskStats.from_list [mkRat 1 2]
        [.prim (.str "t"), .prim (.str "GET"), .prim (.int 1), .prim (.int 0),
         .prim (.int 1), .prim (.rat (mkRat 1 1)), .prim (.int 0),
         .prim (.rat (mkRat 1 1)), .prim (.rat (mkRat 1 1)), .prim (.rat (mkRat 1 1))]
        = Option.none
    ∧ TaskStats.from_list [mkRat 1 2]
        [.prim (.str "t"), .prim (.str "GET"), .prim (.int 1), .prim (.int 0),
         .prim (.int 1), .prim (.rat (mkRat 1 1)), .prim (.int 0),
         .prim (.rat (mkRat 1 1)), .prim (.rat (mkRat 1 1)), .prim (.rat (mkRat 1 1)),
         .plist []] = Option.none
    ∧ ∃ t, TaskStats.from_list [mkRat 1 2]
        [.prim (.str "t"), .prim (.str "GET"), .prim (.int 1), .prim (.int 0),
         .prim (.int 1), .prim (.rat (mkRat 1 1)), .prim (.int 0),
         .prim (.rat (mkRat 1 1)), .prim (.rat (mkRat 1 1)), .prim (.rat (mkRat 1 1)),
         .plist [.int 5, .int 6], .prim (.int 99)] = some t := by
  refine ⟨(from_list_shape_behaviour [mkRat 1 2] _).1 (by decide), ?_, ?_⟩
  · exact (((from_list_shape_behaviour [mkRat 1 2] _).2 _ _ _ _ _ _ _ _ _ _ [] [] rfl).1
      (by decide))
  · exact (((from_list_shape_behaviour [mkRat 1 2] _).2 _ _ _ _ _ _ _ _ _ _ [.int 5, .int 6]
      [.prim (.int 99)] rfl).2 (by decide))

/-! ## Claim C5 -/

/-- Rebuilding key-value pairs from the value column recovers an association
list whose keys are already the rendered percentiles in order. -/
theorem zip_snd_recover (f : ℚ → Prim) :
    ∀ (P : List ℚ) (kvs : List (Prim × Prim)),
      kvs.map Prod.fst = P.map f →
      (P.zip ((kvs.map Prod.snd).take P.length)).map (fun pv => (f pv.1, pv.2)) = kvs := by
  intro P
  induction P with
  | nil =>
    intro kvs h
    have : kvs = [] := by
      cases kvs with
      | nil => rfl
      | cons kv rest => simp at h
    subst this
    rfl
  | cons p ps ih =>
    intro kvs h
    cases kvs with
    | nil => simp at h
    | cons kv rest =>
      simp only [List.map_cons, List.cons.injEq] at h
      obtain ⟨h1, h2⟩ := h
      cases kv with
      | mk k v =>
        subst h1
        simp only [List.map_cons, List.length_cons, List.take_succ_cons, List.zip_cons_cons]
        exact congrArg (List.cons (f p, v)) (ih rest h2)

/-- C5 (amended): flattening a `TaskStats` whose percentile mapping is keyed
by the string forms of the configured percentiles, in the shared order — the
shape every path-B result and every non-degenerate path-A result has — and
reconstructing via path B yields an equal `TaskStats`.  (The round trip fails
for the zero-request path-A values, whose mapping keys are raw floats.) -/
theorem flatten_from_list_roundtrip (P : List ℚ) (t : TaskStats)
    (kvs : List (Prim × Prim))
    (hfield : t.response_time_percentiles = .pdict kvs)
    (hkeys : kvs.map Prod.fst = P.map fun p => Prim.str (pyStr p)) :
    TaskStats.from_list P t.flatten = some t := by
  obtain ⟨a0, a1, a2, a3, a4, a5, a6, a7, a8, a9, a10⟩ := t
  change a10 = TVal.pdict kvs at hfield
  subst hfield
  have hlen : kvs.length = P.length := by
    have := congrArg List.length hkeys
    simpa using this
  show (match pySubscriptAll (TVal.plist (kvs.map Prod.snd)) P.length with
        | some s =>
          some (⟨a0, a1, a2, a3, a4, a5, a6, a7, a8, a9,
                 .pdict ((P.zip s).map fun pv => (.str (pyStr pv.1), pv.2))⟩ : TaskStats)
        | Option.none => Option.none) = some ⟨a0, a1, a2, a3, a4, a5, a6, a7, a8, a9, .pdict kvs⟩
  rw [pySubscriptAll, if_pos (by simp [hlen])]
  show some (⟨a0, a1, a2, a3, a4, a5, a6, a7, a8, a9,
    .pdict ((P.zip ((kvs.map Prod.snd).take P.length)).map
      fun pv => (.str (pyStr pv.1), pv.2))⟩ : TaskStats) = _
  rw [zip_snd_recover _ P kvs hkeys]

/-- C5 (witness): the amended round trip at a concrete string-keyed task. -/
theorem flatten_from_list_roundtrip_witness :
    TaskStats.from_list [mkRat 1 2]
      (TaskStats.flatten ⟨.prim (.str "t"), .prim (.str "GET"), .prim (.int 3), .prim (.int 0),
        .prim (.int 9), .prim (.rat (mkRat 9 1)), .prim (.int 1), .prim (.rat (mkRat 9 1)),
        .prim (.rat (mkRat 9 1)), .prim (.rat (mkRat 9 1)), .pdict [(.str "0.5", .int 7)]⟩) =
    some ⟨.prim (.str "t"), .prim (.str "GET"), .prim (.int 3), .prim (.int 0),
        .prim (.int 9), .prim (.rat (mkRat 9 1)), .prim (.int 1), .prim (.rat (mkRat 9 1)),
        .prim (.rat (mkRat 9 1)), .prim (.rat (mkRat 9 1)), .pdict [(.str "0.5", .int 7)]⟩ := by
  exact flatten_from_list_roundtrip [mkRat 1 2] _ [(.str "0.5", .int 7)] rfl (by decide)

/-- C5 (counterexample): the flattened-row round trip is not the identity on
every `TaskStats` — on the zero-request path-A value the reconstruction
rekeys the percentile mapping with strings, so the result differs from the
original. -/
theorem flatten_roundtrip_fails_on_float_keys :
    TaskStats.from_list [mkRat 1 2] zeroRequestTask.flatten ≠ some zeroRequestTask := by
  decide

/-! ## Claim C6 -/

theorem normMeta_idem (v : MetaVal) : normMeta (normMeta v) = normMeta v := by
  cases v with
  | raw kvs =>
    cases h : coerceMeta kvs with
    | none => simp [normMeta, h]
    | some m => simp [normMeta, h]
  | typed m => rfl
  | pynone => rfl

theorem coerceAll_cons_fail (tv : TaskVal) (l : List TaskVal)
    (h : coerceTaskVal tv = Option.none) : coerceAll (tv :: l) = Option.none := by
  show (match coerceTaskVal tv, coerceAll l with
        | some t, some ts => some (t :: ts)
        | _, _ => Option.none) = Option.none
  rw [h]

theorem normTasks_idem (ts : List TaskVal) : normTasks (normTasks ts) = normTasks ts := by
  cases h : coerceAll ts with
  | none => simp [normTasks, h]
  | some cs =>
    simp only [normTasks, h]
    cases cs with
    | nil => rfl
    | cons c cs' =>
      show normTasks (TaskVal.typed c :: cs'.map TaskVal.typed) = _
      rw [normTasks, coerceAll_cons_fail (TaskVal.typed c) (cs'.map TaskVal.typed) rfl]
      rfl

/-- C6: the `__post_init__` normalization is idempotent — running the
constructor again on an already-constructed `AggregatedStats`'s metadata and
tasks changes neither of them, for every pair of inputs (typed, untyped
mappings, or a mixture). -/
theorem normalization_idempotent (m : MetaVal) (ts : List TaskVal) :
    AggregatedStats.create (AggregatedStats.create m ts).metadata
        (AggregatedStats.create m ts).tasks = AggregatedStats.create m ts := by
  show AggregatedStats.mk (normMeta (normMeta m)) (normTasks (normTasks ts)) =
    AggregatedStats.mk (normMeta m) (normTasks ts)
  rw [normMeta_idem, normTasks_idem]

/-! ## Claim C9 -/

theorem coerceAll_eq_none (ts : List TaskVal) (tv : TaskVal) (hmem : tv ∈ ts)
    (hfail : coerceTaskVal tv = Option.none) : coerceAll ts = Option.none := by
  induction ts with
  | nil => cases hmem
  | cons a l ih =>
    rcases List.mem_cons.mp hmem with rfl | hmem'
    · exact coerceAll_cons_fail _ _ hfail
    · show (match coerceTaskVal a, coerceAll l with
            | some t, some ts => some (t :: ts)
            | _, _ => Option.none) = Option.none
      rw [ih hmem']
      cases coerceTaskVal a <;> rfl

/-- C9: the tasks coercion of `__post_init__` is all-or-nothing — whenever at
least one element of the tasks sequence is not coercible as a
field-name-to-value mapping (an already-typed `TaskStats`, or a mapping whose
keys do not fit), the entire sequence is left unchanged and no element is
coerced. -/
theorem tasks_coercion_all_or_nothing (m : MetaVal) (ts : List TaskVal) (tv : TaskVal)
    (hmem : tv ∈ ts) (hfail : coerceTaskVal tv = Option.none) :
    (AggregatedStats.create m ts).tasks = ts := by
  show normTasks ts = ts
  rw [normTasks, coerceAll_eq_none ts tv hmem hfail]

/-- C9 (witness): a tasks sequence mixing a coercible untyped mapping with an
already-typed `TaskStats` is left entirely unchanged — the coercible first
element is not coerced either. -/
theorem tasks_coercion_all_or_nothing_witness :
    (AggregatedStats.create .pynone
        [TaskVal.raw sampleTaskDict, TaskVal.typed sampleTask]).tasks =
      [TaskVal.raw sampleTaskDict, TaskVal.typed sampleTask] := by
  exact tasks_coercion_all_or_nothing .pynone _ (TaskVal.typed sampleTask)
    (by simp) rfl

/-! ## Claim C10 -/

theorem lookup_mem_keys (kvs : List (String × Prim)) (k : String) (v : Prim)
    (h : kvs.lookup k = some v) : k ∈ kvs.map Prod.fst := by
  induction kvs with
  | nil => simp [List.lookup] at h
  | cons a l ih =>
    cases a with
    | mk k' v' =>
      rw [List.lookup] at h
      cases hbe : (k == k') with
      | true =>
        have : k = k' := by
          have := hbe
          exact eq_of_beq this
        simp [this]
      | false =>
        rw [hbe] at h
        simpa using Or.inr (ih h)

theorem coerceMeta_some_perm (kvs : List (String × Prim)) (m : StatsMetadata)
    (h : coerceMeta kvs = some m) : (kvs.map Prod.fst).Perm metaFieldNames := by
  rw [coerceMeta] at h
  split at h
  next hlen =>
    cases e1 : kvs.lookup "timestamp" with
    | none => rw [e1] at h; exact absurd h (by simp)
    | some v1 =>
    rw [e1, Option.some_bind] at h
    cases e2 : kvs.lookup "tag" with
    | none => rw [e2] at h; exact absurd h (by simp)
    | some v2 =>
    rw [e2, Option.some_bind] at h
    cases e3 : kvs.lookup "environment" with
    | none => rw [e3] at h; exact absurd h (by simp)
    | some v3 =>
    rw [e3, Option.some_bind] at h
    cases e4 : kvs.lookup "stats_reset_after_spawn" with
    | none => rw [e4] at h; exact absurd h (by simp)
    | some v4 =>
    rw [e4, Option.some_bind] at h
    cases e5 : kvs.lookup "num_total_users" with
    | none => rw [e5] at h; exact absurd h (by simp)
    | some v5 =>
    rw [e5, Option.some_bind] at h
    cases e6 : kvs.lookup "num_users_per_second" with
    | none => rw [e6] at h; exact absurd h (by simp)
    | some v6 =>
    rw [e6, Option.some_bind] at h
    cases e7 : kvs.lookup "total_runtime" with
    | none => rw [e7] at h; exact absurd h (by simp)
    | some v7 =>
    have hsub : metaFieldNames ⊆ kvs.map Prod.fst := by
      intro x hx
      simp only [metaFieldNames, List.mem_cons, List.not_mem_nil, or_false] at hx
      rcases hx with rfl | rfl | rfl | rfl | rfl | rfl | rfl
      exacts [lookup_mem_keys kvs _ v1 e1, lookup_mem_keys kvs _ v2 e2,
        lookup_mem_keys kvs _ v3 e3, lookup_mem_keys kvs _ v4 e4,
        lookup_mem_keys kvs _ v5 e5, lookup_mem_keys kvs _ v6 e6,
        lookup_mem_keys kvs _ v7 e7]
    have hsp : List.Subperm metaFieldNames (kvs.map Prod.fst) :=
      List.subperm_of_subset (by decide) hsub
    have hlen' : (kvs.map Prod.fst).length ≤ metaFieldNames.length := by
      simp [metaFieldNames, hlen]
    exact (hsp.perm_of_length_le hlen').symm
  next => exact absurd h (by simp)

/-- C10: a metadata mapping whose key set does not match the declared
`StatsMetadata` field names never raises out of construction — the coercion's
`TypeError` is absorbed and the raw mapping is kept unchanged — and a
metadata of `None` is likewise preserved as `None`. -/
theorem metadata_coercion_failure_absorbed (kvs : List (String × Prim))
    (ts : List TaskVal) (hkeys : ¬ (kvs.map Prod.fst).Perm metaFieldNames) :
    (AggregatedStats.create (.raw kvs) ts).metadata = .raw kvs
    ∧ (AggregatedStats.create .pynone ts).metadata = .pynone := by
  refine ⟨?_, rfl⟩
  show normMeta (.raw kvs) = .raw kvs
  cases h : coerceMeta kvs with
  | none => simp [normMeta, h]
  | some m => exact absurd (coerceMeta_some_perm kvs m h) hkeys

/-- C10 (witness): a mapping missing every field but `timestamp`, and one
with the extra key "extra", are both kept raw, and `None` metadata is kept. -/
theorem metadata_coercion_failure_absorbed_witness :
    (AggregatedStats.create (.raw [("timestamp", .int 1)]) []).metadata
        = .raw [("timestamp", .int 1)]
    ∧ (AggregatedStats.create .pynone []).metadata = .pynone := by
  exact metadata_coercion_failure_absorbed [("timestamp", .int 1)] [] (by decide)

/-! ## Claim C4 -/

theorem primToJson_eq_self (p : Prim) (h : p.jsonAtom = true) : primToJson p = p := by
  cases p <;> first | rfl | simp [Prim.jsonAtom] at h

theorem tvalToJson_eq_self (v : TVal) (h : v.jsonReady = true) : tvalToJson v = v := by
  cases v with
  | prim p => rw [tvalToJson, primToJson_eq_self p h]
  | plist xs =>
    have hall := List.all_eq_true.mp h
    rw [tvalToJson]
    congr 1
    rw [List.map_congr_left fun a ha => primToJson_eq_self a (hall a ha), List.map_id']
  | pdict kvs =>
    have hall := List.all_eq_true.mp h
    rw [tvalToJson]
    congr 1
    have hid : ∀ kv ∈ kvs, (jsonKey kv.1, primToJson kv.2) = id kv := by
      intro kv hkv
      have hkv' := hall kv hkv
      rw [Bool.and_eq_true] at hkv'
      obtain ⟨hk, ha⟩ := hkv'
      cases kv with
      | mk k v' =>
        cases k <;> simp at hk
        rw [primToJson_eq_self v' ha]
        rfl
    rw [List.map_congr_left hid, List.map_id]

theorem coerceTask_serialize (t : TaskStats) :
    coerceTask t.serialize = some t.jsonNormalized := by
  obtain ⟨a0, a1, a2, a3, a4, a5, a6, a7, a8, a9, a10⟩ := t
  simp only [TaskStats.serialize, TaskStats.jsonNormalized]
  simp [coerceTask, List.lookup]

theorem jsonNormalized_eq_self (t : TaskStats) (h : t.jsonReady = true) :
    t.jsonNormalized = t := by
  obtain ⟨a0, a1, a2, a3, a4, a5, a6, a7, a8, a9, a10⟩ := t
  simp only [TaskStats.jsonReady, Bool.and_eq_true] at h
  obtain ⟨⟨⟨⟨⟨⟨⟨⟨⟨⟨h0, h1⟩, h2⟩, h3⟩, h4⟩, h5⟩, h6⟩, h7⟩, h8⟩, h9⟩, h10⟩ := h
  simp only [TaskStats.jsonNormalized]
  rw [tvalToJson_eq_self _ h0, tvalToJson_eq_self _ h1, tvalToJson_eq_self _ h2,
    tvalToJson_eq_self _ h3, tvalToJson_eq_self _ h4, tvalToJson_eq_self _ h5,
    tvalToJson_eq_self _ h6, tvalToJson_eq_self _ h7, tvalToJson_eq_self _ h8,
    tvalToJson_eq_self _ h9, tvalToJson_eq_self _ h10]

theorem coerceMeta_serialize (m : StatsMetadata) (e : StatsEnvironment)
    (henv : m.environment = .env e) (h : m.plainAtoms = true) :
    coerceMeta m.serialize =
      some ⟨m.timestamp, m.tag, .str e.serialized, m.stats_reset_after_spawn,
            m.num_total_users, m.num_users_per_second, m.total_runtime⟩ := by
  obtain ⟨b0, b1, b2, b3, b4, b5, b6⟩ := m
  change b2 = Prim.env e at henv
  subst henv
  simp only [StatsMetadata.plainAtoms, Bool.and_eq_true] at h
  obtain ⟨⟨⟨⟨⟨h0, h1⟩, h3⟩, h4⟩, h5⟩, h6⟩ := h
  simp only [StatsMetadata.serialize]
  rw [primToJson_eq_self _ h0, primToJson_eq_self _ h1, primToJson_eq_self _ h3,
    primToJson_eq_self _ h4, primToJson_eq_self _ h5, primToJson_eq_self _ h6]
  simp [coerceMeta, List.lookup, primToJson]

theorem coerceAll_raw_serialize (ts : List TaskStats) :
    coerceAll (ts.map fun t => TaskVal.raw t.serialize) =
      some (ts.map TaskStats.jsonNormalized) := by
  induction ts with
  | nil => rfl
  | cons a l ih =>
    show (match coerceTaskVal (TaskVal.raw a.serialize),
            coerceAll (l.map fun t => TaskVal.raw t.serialize) with
          | some t, some ts => some (t :: ts)
          | _, _ => Option.none) =
      some (a.jsonNormalized :: l.map TaskStats.jsonNormalized)
    have ha : coerceTaskVal (TaskVal.raw a.serialize) = some a.jsonNormalized :=
      coerceTask_serialize a
    rw [ha, ih]

/-- C4 (amended): serializing an `AggregatedStats` to its nested-mapping
form and reconstructing via the normalization constructor restores every
metadata field except the environment classifier, which comes back as its
serialized string form ("TEST" | "PROD") rather than the enum, and maps
each task to its field-wise JSON normalization — the identity exactly on
tasks whose fields are atoms and whose percentile mapping is string-keyed
(every path-B result and non-zero-request path-A result), while a
zero-request path-A task's float-keyed percentile mapping comes back
rekeyed by the keys' string forms, so those tasks are not restored either. -/
theorem serialization_roundtrip_amended (e : StatsEnvironment) (m : StatsMetadata)
    (ts : List TaskStats) (henv : m.environment = .env e)
    (hm : m.plainAtoms = true) :
    (AggregatedStats.roundTrip ⟨.typed m, ts.map TaskVal.typed⟩ =
      ⟨.typed ⟨m.timestamp, m.tag, .str e.serialized, m.stats_reset_after_spawn,
               m.num_total_users, m.num_users_per_second, m.total_runtime⟩,
       (ts.map TaskStats.jsonNormalized).map TaskVal.typed⟩)
    ∧ ∀ t ∈ ts, t.jsonReady = true → t.jsonNormalized = t := by
  constructor
  · show AggregatedStats.mk (normMeta (MetaVal.serialize (.typed m)))
        (normTasks ((ts.map TaskVal.typed).map TaskVal.serialize)) = _
    have h1 : normMeta (MetaVal.serialize (.typed m)) =
        .typed ⟨m.timestamp, m.tag, .str e.serialized, m.stats_reset_after_spawn,
                m.num_total_users, m.num_users_per_second, m.total_runtime⟩ := by
      show normMeta (.raw m.serialize) = _
      simp [normMeta, coerceMeta_serialize m e henv hm]
    have h2 : (ts.map TaskVal.typed).map TaskVal.serialize =
        ts.map fun t => TaskVal.raw t.serialize := by
      rw [List.map_map]
      rfl
    have h3 : normTasks (ts.map fun t => TaskVal.raw t.serialize) =
        (ts.map TaskStats.jsonNormalized).map TaskVal.typed := by
      rw [normTasks, coerceAll_raw_serialize ts]
    rw [h1, h2, h3]
  · intro t _ hready
    exact jsonNormalized_eq_self t hready

/-- C4 (counterexample): the nested-mapping round trip is not the identity —
on a snapshot whose metadata holds the TEST classifier and whose single task
is the zero-request path-A value, reconstruction yields metadata whose
environment field is the string "TEST" and a task whose percentile mapping
is rekeyed by "0.5" in place of the float 0.5, so neither the metadata nor
the tasks of the original are restored. -/
theorem roundtrip_changes_environment_and_task_keys :
    AggregatedStats.roundTrip mixedAgg ≠ mixedAgg
    ∧ AggregatedStats.roundTrip mixedAgg =
        ⟨.typed ⟨.int 1, .str "run", .str "TEST", .bool true, .int 10,
          .rat (mkRat 1 1), .rat (mkRat 5 1)⟩,
         [TaskVal.typed ⟨.prim (.str "t"), .prim (.str "GET"), .prim (.int 0),
           .prim (.int 0), .prim (.int 0), .prim (.rat (mkRat 0 1)), .prim (.int 0),
           .prim (.rat (mkRat 0 1)), .prim (.rat (mkRat 0 1)), .prim (.rat (mkRat 0 1)),
           .pdict [(.str "0.5", .int 0)]⟩]⟩
    ∧ TaskVal.typed zeroRequestTask ≠
        TaskVal.typed ⟨.prim (.str "t"), .prim (.str "GET"), .prim (.int 0),
          .prim (.int 0), .prim (.int 0), .prim (.rat (mkRat 0 1)), .prim (.int 0),
          .prim (.rat (mkRat 0 1)), .prim (.rat (mkRat 0 1)), .prim (.rat (mkRat 0 1)),
          .pdict [(.str "0.5", .int 0)]⟩ := by
  refine ⟨by decide, by decide, by decide⟩

/-- C4 (witness): the amended round-trip statement at a concrete snapshot
holding one string-keyed task (restored exactly) and one zero-request
path-A task (rekeyed). -/
theorem serialization_roundtrip_amended_witness :
    (AggregatedStats.roundTrip
        ⟨.typed ⟨.int 2, .str "w", .env .PROD, .bool false, .int 3,
          .rat (mkRat 2 1), .rat (mkRat 7 1)⟩,
         [TaskVal.typed sampleTask, TaskVal.typed zeroRequestTask]⟩ =
      ⟨.typed ⟨.int 2, .str "w", .str "PROD", .bool false, .int 3,
        .rat (mkRat 2 1), .rat (mkRat 7 1)⟩,
       [TaskVal.typed sampleTask,
        TaskVal.typed ⟨.prim (.str "t"), .prim (.str "GET"), .prim (.int 0),
          .prim (.int 0), .prim (.int 0), .prim (.rat (mkRat 0 1)), .prim (.int 0),
          .prim (.rat (mkRat 0 1)), .prim (.rat (mkRat 0 1)), .prim (.rat (mkRat 0 1)),
          .pdict [(.str "0.5", .int 0)]⟩]⟩)
    ∧ sampleTask.jsonReady = true
    ∧ sampleTask.jsonNormalized = sampleTask := by
  have h := serialization_roundtrip_amended .PROD
    ⟨.int 2, .str "w", .env .PROD, .bool false, .int 3, .rat (mkRat 2 1), .rat (mkRat 7 1)⟩
    [sampleTask, zeroRequestTask] rfl (by decide)
  exact ⟨h.1.trans (by decide), by decide, h.2 sampleTask (by simp) (by decide)⟩

end AggStats
